import Mathlib

/-!
Verification development for the `log` component header
(`components/log/include/esp_log.h`): the level enumeration, the two-stage
filtering policy of the log macros, the line format, the level registry,
the pluggable sink, and the timestamp contract.

The header declares `esp_log_level_set`, `esp_log_set_vprintf`,
`esp_log_write` and `esp_log_timestamp` but their implementations are not
part of this repository fragment; those four operations are modelled from
the specification and are marked as such in their doc comments.  Everything
else (the enumeration, the color macros, `LOG_FORMAT`, the `ESP_LOGx` and
`ESP_EARLY_LOGx` macro bodies) is translated directly from the header.
-/

/-- The `esp_log_level_t` enumeration from the header.  The C enum gives the
constants, in declaration order, the consecutive values 0..5. -/
inductive esp_log_level_t : Type where
  | ESP_LOG_NONE
  | ESP_LOG_ERROR
  | ESP_LOG_WARN
  | ESP_LOG_INFO
  | ESP_LOG_DEBUG
  | ESP_LOG_VERBOSE
deriving DecidableEq, Repr, Fintype

namespace esp_log_level_t

/-- The numeric value the C enum assigns to each constant (consecutive from 0). -/
def toNat : esp_log_level_t → Nat
  | ESP_LOG_NONE => 0
  | ESP_LOG_ERROR => 1
  | ESP_LOG_WARN => 2
  | ESP_LOG_INFO => 3
  | ESP_LOG_DEBUG => 4
  | ESP_LOG_VERBOSE => 5

instance : LE esp_log_level_t := ⟨fun a b => a.toNat ≤ b.toNat⟩

instance : LT esp_log_level_t := ⟨fun a b => a.toNat < b.toNat⟩

instance (a b : esp_log_level_t) : Decidable (a ≤ b) :=
  inferInstanceAs (Decidable (a.toNat ≤ b.toNat))

instance (a b : esp_log_level_t) : Decidable (a < b) :=
  inferInstanceAs (Decidable (a.toNat < b.toNat))

end esp_log_level_t

open esp_log_level_t

/-- An argument passed through the variadic part of a log call (the model only
needs the two conversions the `LOG_FORMAT` prefix uses, `%d` for the
timestamp and `%s` for the tag; message arguments use the same two). -/
inductive PArg : Type where
  | int (n : Nat)
  | str (s : String)
deriving DecidableEq, Repr

/-- Modelled from the spec: the `vprintf`-like rendering convention of the
Sink ("mirrors a standard formatted-write convention"; the Sink
implementation is not in the repository).  Scans the format character list;
`%d` consumes an integer argument and prints its decimal form, `%s` consumes
a string argument and splices it; every other character is copied.  -/
def vformatChars : List Char → List PArg → List Char
  | [], _ => []
  | '%' :: 'd' :: rest, PArg.int n :: args => (Nat.repr n).data ++ vformatChars rest args
  | '%' :: 's' :: rest, PArg.str s :: args => s.data ++ vformatChars rest args
  | c :: rest, args => c :: vformatChars rest args

/-- String-level wrapper of `vformatChars`. -/
def vformat (fmt : String) (args : List PArg) : String :=
  ⟨vformatChars fmt.data args⟩

/-- A format string matches an argument list when every `%` directive in it
is `%d` or `%s` and meets an argument of that shape, and the arguments are
consumed exactly. -/
def fmtMatches : List Char → List PArg → Bool
  | [], [] => true
  | [], _ :: _ => false
  | '%' :: 'd' :: rest, PArg.int _ :: args => fmtMatches rest args
  | '%' :: 's' :: rest, PArg.str _ :: args => fmtMatches rest args
  | '%' :: _, _ => false
  | _ :: rest, args => fmtMatches rest args

/-- Header macro `LOG_COLOR_RED`. -/
def LOG_COLOR_RED : String := "31"

/-- Header macro `LOG_COLOR_GREEN`. -/
def LOG_COLOR_GREEN : String := "32"

/-- Header macro `LOG_COLOR_BROWN`. -/
def LOG_COLOR_BROWN : String := "33"

/-- Header macro `LOG_COLOR(COLOR)`: the ANSI escape `"\033[0;" COLOR "m"`. -/
def LOG_COLOR (color : String) : String := "\x1b[0;" ++ color ++ "m"

/-- Header macro `LOG_RESET_COLOR`: `"\033[0m"` when `CONFIG_LOG_COLORS` is set, and the
empty string in the `#else` branch. -/
def LOG_RESET_COLOR (colors : Bool) : String := if colors then "\x1b[0m" else ""

/-- The five level letters that appear in the macro bodies as the `letter`
argument of `LOG_FORMAT`. -/
inductive Letter : Type where
  | E
  | W
  | I
  | D
  | V
deriving DecidableEq, Repr

/-- The stringized letter `#letter` in `LOG_FORMAT`. -/
def letterString : Letter → String
  | .E => "E"
  | .W => "W"
  | .I => "I"
  | .D => "D"
  | .V => "V"

/-- Header macros `LOG_COLOR_E` / `LOG_COLOR_W` / `LOG_COLOR_I` / `LOG_COLOR_D` /
`LOG_COLOR_V` from the header: with `CONFIG_LOG_COLORS` set, `E` is red,
`W` brown, `I` green, and `D`/`V` expand to nothing; with colors disabled
all five expand to nothing. -/
def logColorOf (colors : Bool) : Letter → String
  | .E => if colors then LOG_COLOR LOG_COLOR_RED else ""
  | .W => if colors then LOG_COLOR LOG_COLOR_BROWN else ""
  | .I => if colors then LOG_COLOR LOG_COLOR_GREEN else ""
  | .D => ""
  | .V => ""

/-- Header macro `LOG_FORMAT(letter, format)`:
`LOG_COLOR_ ## letter #letter " (%d) %s: " format LOG_RESET_COLOR "\n"`
(C string-literal concatenation). -/
def LOG_FORMAT (colors : Bool) (letter : Letter) (format : String) : String :=
  logColorOf colors letter ++ letterString letter ++ " (%d) %s: " ++ format ++
    LOG_RESET_COLOR colors ++ "\n"

/-- A call that the expansion of a log macro can make: the ROM primitive
`ets_printf` (early path) or the function `esp_log_write` (normal path). -/
inductive LogCall : Type where
  | etsPrintf (format : String) (args : List PArg)
  | espLogWrite (level : esp_log_level_t) (tag : String) (format : String) (args : List PArg)
deriving DecidableEq, Repr

/-- Compile-time configuration of a translation unit: the `LOG_LOCAL_LEVEL`
ceiling (which defaults to `CONFIG_LOG_DEFAULT_LEVEL`, or to
`CONFIG_LOG_BOOTLOADER_LEVEL` in a bootloader build) and the
`CONFIG_LOG_COLORS` toggle. -/
structure LogConfig : Type where
  localLevel : esp_log_level_t
  colors : Bool
deriving DecidableEq, Repr

/-- Shared body of the five `ESP_EARLY_LOGx` macros from the header:
`if (LOG_LOCAL_LEVEL >= level) \x7b ets_printf(LOG_FORMAT(letter, format),
esp_log_timestamp(), tag, ##__VA_ARGS__); \x7d`.  `ts` stands for the value
`esp_log_timestamp()` returned at the call site. -/
def espEarlyLogMacro (cfg : LogConfig) (level : esp_log_level_t) (letter : Letter)
    (tag format : String) (ts : Nat) (args : List PArg) : Option LogCall :=
  if level ≤ cfg.localLevel then
    some (.etsPrintf (LOG_FORMAT cfg.colors letter format) (.int ts :: .str tag :: args))
  else none

/-- Shared body of the five non-bootloader `ESP_LOGx` macros from the header:
`if (LOG_LOCAL_LEVEL >= level) \x7b esp_log_write(level, tag,
LOG_FORMAT(letter, format), esp_log_timestamp(), tag, ##__VA_ARGS__); \x7d`. -/
def espLogMacro (cfg : LogConfig) (level : esp_log_level_t) (letter : Letter)
    (tag format : String) (ts : Nat) (args : List PArg) : Option LogCall :=
  if level ≤ cfg.localLevel then
    some (.espLogWrite level tag (LOG_FORMAT cfg.colors letter format)
      (.int ts :: .str tag :: args))
  else none

/-- Header macro `ESP_EARLY_LOGE`. -/
def ESP_EARLY_LOGE (cfg : LogConfig) (tag format : String) (ts : Nat) (args : List PArg) :
    Option LogCall :=
  espEarlyLogMacro cfg .ESP_LOG_ERROR .E tag format ts args

/-- Header macro `ESP_EARLY_LOGW`. -/
def ESP_EARLY_LOGW (cfg : LogConfig) (tag format : String) (ts : Nat) (args : List PArg) :
    Option LogCall :=
  espEarlyLogMacro cfg .ESP_LOG_WARN .W tag format ts args

/-- Header macro `ESP_EARLY_LOGI`. -/
def ESP_EARLY_LOGI (cfg : LogConfig) (tag format : String) (ts : Nat) (args : List PArg) :
    Option LogCall :=
  espEarlyLogMacro cfg .ESP_LOG_INFO .I tag format ts args

/-- Header macro `ESP_EARLY_LOGD`. -/
def ESP_EARLY_LOGD (cfg : LogConfig) (tag format : String) (ts : Nat) (args : List PArg) :
    Option LogCall :=
  espEarlyLogMacro cfg .ESP_LOG_DEBUG .D tag format ts args

/-- Header macro `ESP_EARLY_LOGV`. -/
def ESP_EARLY_LOGV (cfg : LogConfig) (tag format : String) (ts : Nat) (args : List PArg) :
    Option LogCall :=
  espEarlyLogMacro cfg .ESP_LOG_VERBOSE .V tag format ts args

/-- Header macro `ESP_LOGE` (non-bootloader branch). -/
def ESP_LOGE (cfg : LogConfig) (tag format : String) (ts : Nat) (args : List PArg) :
    Option LogCall :=
  espLogMacro cfg .ESP_LOG_ERROR .E tag format ts args

/-- Header macro `ESP_LOGW` (non-bootloader branch). -/
def ESP_LOGW (cfg : LogConfig) (tag format : String) (ts : Nat) (args : List PArg) :
    Option LogCall :=
  espLogMacro cfg .ESP_LOG_WARN .W tag format ts args

/-- Header macro `ESP_LOGI` (non-bootloader branch). -/
def ESP_LOGI (cfg : LogConfig) (tag format : String) (ts : Nat) (args : List PArg) :
    Option LogCall :=
  espLogMacro cfg .ESP_LOG_INFO .I tag format ts args

/-- Header macro `ESP_LOGD` (non-bootloader branch). -/
def ESP_LOGD (cfg : LogConfig) (tag format : String) (ts : Nat) (args : List PArg) :
    Option LogCall :=
  espLogMacro cfg .ESP_LOG_DEBUG .D tag format ts args

/-- Header macro `ESP_LOGV` (non-bootloader branch). -/
def ESP_LOGV (cfg : LogConfig) (tag format : String) (ts : Nat) (args : List PArg) :
    Option LogCall :=
  espLogMacro cfg .ESP_LOG_VERBOSE .V tag format ts args

/-- Header macro `ESP_LOGE` in the `BOOTLOADER_BUILD` branch: it falls back
to `ESP_EARLY_LOGE`. -/
def ESP_LOGE_BOOTLOADER (cfg : LogConfig) (tag format : String) (ts : Nat)
    (args : List PArg) : Option LogCall :=
  ESP_EARLY_LOGE cfg tag format ts args

/-- Header macro `ESP_LOGW` in the `BOOTLOADER_BUILD` branch: it falls back
to `ESP_EARLY_LOGW`. -/
def ESP_LOGW_BOOTLOADER (cfg : LogConfig) (tag format : String) (ts : Nat)
    (args : List PArg) : Option LogCall :=
  ESP_EARLY_LOGW cfg tag format ts args

/-- Header macro `ESP_LOGI` in the `BOOTLOADER_BUILD` branch: it falls back
to `ESP_EARLY_LOGI`. -/
def ESP_LOGI_BOOTLOADER (cfg : LogConfig) (tag format : String) (ts : Nat)
    (args : List PArg) : Option LogCall :=
  ESP_EARLY_LOGI cfg tag format ts args

/-- Header macro `ESP_LOGD` in the `BOOTLOADER_BUILD` branch: it falls back
to `ESP_EARLY_LOGD`. -/
def ESP_LOGD_BOOTLOADER (cfg : LogConfig) (tag format : String) (ts : Nat)
    (args : List PArg) : Option LogCall :=
  ESP_EARLY_LOGD cfg tag format ts args

/-- Header macro `ESP_LOGV` in the `BOOTLOADER_BUILD` branch: it falls back
to `ESP_EARLY_LOGV`. -/
def ESP_LOGV_BOOTLOADER (cfg : LogConfig) (tag format : String) (ts : Nat)
    (args : List PArg) : Option LogCall :=
  ESP_EARLY_LOGV cfg tag format ts args

/-- Modelled from the spec: the process-wide mutable state of the façade —
the Level Registry (per-tag entries plus the global default that absent
entries fall back to) and the single active Sink.  The Sink is identified
abstractly by a number since the model only needs its identity.  The
implementations of `esp_log_level_set`, `esp_log_set_vprintf` and
`esp_log_write` are declared in the header but are not part of this
repository fragment. -/
structure LogState : Type where
  defaultLevel : esp_log_level_t
  entries : List (String × esp_log_level_t)
  sink : Nat
deriving DecidableEq, Repr

/-- Level Registry lookup: the entry for `tag`, or the global default level
when no entry for `tag` is present. -/
def registryLevel (s : LogState) (tag : String) : esp_log_level_t :=
  match s.entries.find? (fun e => e.1 == tag) with
  | some e => e.2
  | none => s.defaultLevel

/-- Upsert into the registry entry list: update the entry for `tag` in
place if one exists, otherwise append a new entry. -/
def upsertEntry : List (String × esp_log_level_t) → String → esp_log_level_t →
    List (String × esp_log_level_t)
  | [], tag, level => [(tag, level)]
  | (t, l) :: rest, tag, level =>
      if t = tag then (t, level) :: rest else (t, l) :: upsertEntry rest tag level

/-- Modelled from the spec: `esp_log_level_set(tag, level)` (implementation
not in the repository fragment) upserts the Level Registry entry for `tag`;
the wildcard tag `"*"` instead resets every previously set per-tag entry to
the given value.  There is no error path. -/
def esp_log_level_set (s : LogState) (tag : String) (level : esp_log_level_t) : LogState :=
  if tag = "*" then
    { s with entries := s.entries.map (fun e => (e.1, level)) }
  else
    { s with entries := upsertEntry s.entries tag level }

/-- Modelled from the spec: `esp_log_set_vprintf(func)` (implementation not
in the repository fragment) replaces the single process-wide Sink; it takes
effect for all subsequent writes. -/
def esp_log_set_vprintf (s : LogState) (func : Nat) : LogState :=
  { s with sink := func }

/-- A formatted-write request handed to the active Sink: the identity of
the sink that received it plus the format string and variadic arguments it
was given (the composed line is their rendering `vformat format args`). -/
structure SinkEvent : Type where
  sink : Nat
  format : String
  args : List PArg
deriving DecidableEq, Repr

/-- Modelled from the spec: the run-time body of `esp_log_write(level, tag,
format, ...)` (implementation not in the repository fragment) — it compares
`level` against the Level Registry value for `tag` (or the default); when
`level` is more verbose the call is a no-op producing no output, otherwise
the composed line is passed to the current Sink. -/
def esp_log_write (s : LogState) (level : esp_log_level_t) (tag : String)
    (format : String) (args : List PArg) : Option SinkEvent :=
  if level ≤ registryLevel s tag then some ⟨s.sink, format, args⟩ else none

/-- Output produced by running one macro-produced call: a Sink write (the
normal path) or a direct write through the ROM primitive `ets_printf` (the
early path, which bypasses the Sink). -/
inductive OutputEvent : Type where
  | toSink (e : SinkEvent)
  | toRom (format : String) (args : List PArg)
deriving DecidableEq, Repr

/-- Runs one macro-produced call against the façade state.  The ROM
primitive `ets_printf` writes unconditionally to the fixed early console
and consults neither the Level Registry nor the Sink; `esp_log_write`
behaves as modelled above. -/
def runCall (s : LogState) : LogCall → Option OutputEvent
  | .etsPrintf format args => some (.toRom format args)
  | .espLogWrite level tag format args =>
      (esp_log_write s level tag format args).map .toSink

/-- An operation against the façade's mutable state, for trace reasoning. -/
inductive LogOp : Type where
  | setLevel (tag : String) (level : esp_log_level_t)
  | setVprintf (func : Nat)
  | writeOp (level : esp_log_level_t) (tag format : String) (args : List PArg)
deriving DecidableEq, Repr

/-- One step of the façade: `setLevel` and `setVprintf` update the state and
emit nothing; `writeOp` leaves the state unchanged and emits what
`esp_log_write` hands to the Sink (if anything). -/
def logStep (s : LogState) : LogOp → LogState × Option SinkEvent
  | .setLevel tag level => (esp_log_level_set s tag level, none)
  | .setVprintf func => (esp_log_set_vprintf s func, none)
  | .writeOp level tag format args => (s, esp_log_write s level tag format args)

/-- Runs a sequence of operations, returning the final state and the list
of Sink events emitted, in order. -/
def logRun (s : LogState) : List LogOp → LogState × List SinkEvent
  | [] => (s, [])
  | op :: ops =>
      let step := logStep s op
      let rest := logRun step.1 ops
      (rest.1, step.2.toList ++ rest.2)

/-- Modelled from the spec: the state of the timestamp source read by
`esp_log_timestamp` (implementation not in the repository fragment).
Before the FreeRTOS scheduler runs, the millisecond count is derived from
the CPU cycle counter; once the scheduler is running it is derived from the
tick count. -/
structure ClockState : Type where
  schedulerRunning : Bool
  cycleMs : Nat
  tickMs : Nat
deriving DecidableEq, Repr

/-- Millisecond count of the currently active timestamp source, unbounded. -/
def rawTimestampMs (c : ClockState) : Nat :=
  if c.schedulerRunning then c.tickMs else c.cycleMs

/-- Modelled from the spec: `esp_log_timestamp()` (implementation not in the
repository fragment) returns the active source's millisecond count as a
`uint32_t`; millisecond counter overflow is explicitly ignored, so the
returned value is the count reduced modulo `2 ^ 32`. -/
def esp_log_timestamp (c : ClockState) : Nat :=
  rawTimestampMs c % 2 ^ 32

/-- Modelled from the spec: the ways the timestamp source may evolve
between two consecutive calls within one execution context.  Time only
moves forward on the active source, and when the scheduler starts, the
tick-derived count takes over no earlier than the cycle-derived count it
replaces (the spec guarantees a non-decreasing counter across the source
switch). -/
inductive ClockStep : ClockState → ClockState → Prop where
  | advanceCycle (c : ClockState) (d : Nat) (h : c.schedulerRunning = false) :
      ClockStep c { c with cycleMs := c.cycleMs + d }
  | advanceTick (c : ClockState) (d : Nat) (h : c.schedulerRunning = true) :
      ClockStep c { c with tickMs := c.tickMs + d }
  | startScheduler (c : ClockState) (t : Nat) (h : c.schedulerRunning = false)
      (hge : c.cycleMs ≤ t) :
      ClockStep c { schedulerRunning := true, cycleMs := c.cycleMs, tickMs := t }

/-- Reachability along zero or more clock steps. -/
inductive ClockReach : ClockState → ClockState → Prop where
  | refl (c : ClockState) : ClockReach c c
  | step (a b c : ClockState) : ClockStep a b → ClockReach b c → ClockReach a c

/-- Return types that occur in the header's declarations. -/
inductive CRet : Type where
  | void
  | int
  | uint32
deriving DecidableEq, Repr

/-- Return type of `void esp_log_level_set(const char* tag,
esp_log_level_t level)` as the header declares it. -/
def esp_log_level_set_ret : CRet := .void

/-- Return type of `void esp_log_set_vprintf(vprintf_like_t func)` as the
header declares it. -/
def esp_log_set_vprintf_ret : CRet := .void

/-- Return type of `void esp_log_write(esp_log_level_t level, const char*
tag, const char* format, ...)` as the header declares it. -/
def esp_log_write_ret : CRet := .void

/-- Return type of the sink function type `typedef int
(*vprintf_like_t)(const char *, va_list)` as the header declares it. -/
def vprintf_like_t_ret : CRet := .int

/-- Return type of `uint32_t esp_log_timestamp()` as the header declares
it. -/
def esp_log_timestamp_ret : CRet := .uint32

/-- Whether an operation swaps the Sink. -/
def LogOp.isSetVprintf : LogOp → Bool
  | .setVprintf _ => true
  | _ => false

/-- Whether a macro-produced call is an `ets_printf` call. -/
def LogCall.isEtsPrintf : LogCall → Bool
  | .etsPrintf _ _ => true
  | _ => false

/-! ### Helper lemmas about the rendering model -/

theorem vformatChars_cons_ne (c : Char) (rest : List Char) (args : List PArg)
    (h : c ≠ '%') : vformatChars (c :: rest) args = c :: vformatChars rest args := by
  unfold vformatChars
  split <;> simp_all
  rw [← vformatChars.eq_def]

theorem vformatChars_no_pct (xs : List Char) (h : ∀ c ∈ xs, c ≠ '%') (tail : List Char)
    (args : List PArg) : vformatChars (xs ++ tail) args = xs ++ vformatChars tail args := by
  induction xs with
  | nil => rfl
  | cons c cs ih =>
      have hc : c ≠ '%' := h c (List.mem_cons_self c cs)
      rw [List.cons_append, vformatChars_cons_ne c (cs ++ tail) args hc,
        ih (fun d hd => h d (List.mem_cons_of_mem c hd))]
      rfl

theorem vformatChars_no_pct_nil (xs : List Char) (h : ∀ c ∈ xs, c ≠ '%') :
    vformatChars xs [] = xs := by
  have hx := vformatChars_no_pct xs h [] []
  simpa [vformatChars] using hx

theorem fmtMatches_cons_ne (c : Char) (rest : List Char) (args : List PArg) (h : c ≠ '%') :
    fmtMatches (c :: rest) args = fmtMatches rest args := by
  unfold fmtMatches
  split <;> simp_all
  rw [← fmtMatches.eq_def]

theorem vformatChars_pct_d (rest : List Char) (n : Nat) (args : List PArg) :
    vformatChars ('%' :: 'd' :: rest) (PArg.int n :: args) =
      (Nat.repr n).data ++ vformatChars rest args := rfl

theorem vformatChars_pct_s (rest : List Char) (s : String) (args : List PArg) :
    vformatChars ('%' :: 's' :: rest) (PArg.str s :: args) =
      s.data ++ vformatChars rest args := rfl

theorem vformatChars_append_of_matches (fmt : List Char) (args : List PArg)
    (h : fmtMatches fmt args = true) (tail : List Char) (rest : List PArg) :
    vformatChars (fmt ++ tail) (args ++ rest) =
      vformatChars fmt args ++ vformatChars tail rest := by
  induction fmt, args using fmtMatches.induct with
  | case1 => simp [vformatChars]
  | case2 => simp [fmtMatches] at h
  | case3 r n a ih =>
      simp only [fmtMatches] at h
      simp only [List.cons_append, List.append_assoc]
      show (Nat.repr n).data ++ vformatChars (r ++ tail) (a ++ rest) =
        ((Nat.repr n).data ++ vformatChars r a) ++ vformatChars tail rest
      rw [ih h, List.append_assoc]
  | case4 r s a ih =>
      simp only [fmtMatches] at h
      simp only [List.cons_append, List.append_assoc]
      show s.data ++ vformatChars (r ++ tail) (a ++ rest) =
        (s.data ++ vformatChars r a) ++ vformatChars tail rest
      rw [ih h, List.append_assoc]
  | case5 => simp_all [fmtMatches]
  | case6 c r a h1 h2 h3 ih =>
      have hc : c ≠ '%' := fun hceq => h3 hceq
      rw [fmtMatches_cons_ne c r a hc] at h
      rw [List.cons_append, vformatChars_cons_ne c (r ++ tail) (a ++ rest) hc,
        vformatChars_cons_ne c r a hc, ih h, List.cons_append]

/-! ### C3: the level enumeration -/

/-- C3: `esp_log_level_t` is a closed ordered enumeration whose constants
take the consecutive values 0..5 in the order NONE, ERROR, WARN, INFO,
DEBUG, VERBOSE; the order is strict and ascending, with a higher numeric
value meaning more verbose. -/
theorem level_enum_closed_ordered :
    (ESP_LOG_NONE.toNat = 0 ∧ ESP_LOG_ERROR.toNat = 1 ∧ ESP_LOG_WARN.toNat = 2 ∧
      ESP_LOG_INFO.toNat = 3 ∧ ESP_LOG_DEBUG.toNat = 4 ∧ ESP_LOG_VERBOSE.toNat = 5) ∧
    (ESP_LOG_NONE < ESP_LOG_ERROR ∧ ESP_LOG_ERROR < ESP_LOG_WARN ∧
      ESP_LOG_WARN < ESP_LOG_INFO ∧ ESP_LOG_INFO < ESP_LOG_DEBUG ∧
      ESP_LOG_DEBUG < ESP_LOG_VERBOSE) ∧
    (∀ l : esp_log_level_t, l = ESP_LOG_NONE ∨ l = ESP_LOG_ERROR ∨ l = ESP_LOG_WARN ∨
      l = ESP_LOG_INFO ∨ l = ESP_LOG_DEBUG ∨ l = ESP_LOG_VERBOSE) ∧
    (∀ a b : esp_log_level_t, a < b ↔ a.toNat < b.toNat) := by
  refine ⟨by decide, by decide, ?_, ?_⟩
  · intro l
    cases l <;> simp
  · intro a b
    exact Iff.rfl

/-! ### C5: the composed line format -/

theorem logColorOf_no_pct (colors : Bool) (l : Letter) :
    ∀ c ∈ (logColorOf colors l).data, c ≠ '%' := by
  cases colors <;> cases l <;> decide

theorem letterString_no_pct (l : Letter) : ∀ c ∈ (letterString l).data, c ≠ '%' := by
  cases l <;> decide

theorem resetNl_no_pct (colors : Bool) :
    ∀ c ∈ (LOG_RESET_COLOR colors).data ++ ['\n'], c ≠ '%' := by
  cases colors <;> decide

theorem vformatChars_line (color lstr : List Char)
    (hc : ∀ c ∈ color, c ≠ '%') (hl : ∀ c ∈ lstr, c ≠ '%')
    (ts : Nat) (tag : String) (fmt : List Char) (args : List PArg)
    (h : fmtMatches fmt args = true) (post : List Char) (hp : ∀ c ∈ post, c ≠ '%') :
    vformatChars
        (color ++ (lstr ++ (' ' :: '(' :: '%' :: 'd' :: ')' :: ' ' :: '%' :: 's' ::
          ':' :: ' ' :: (fmt ++ post))))
        (PArg.int ts :: PArg.str tag :: args) =
      color ++ (lstr ++ (' ' :: '(' :: ((Nat.repr ts).data ++ (')' :: ' ' ::
        (tag.data ++ (':' :: ' ' :: (vformatChars fmt args ++ post))))))) := by
  rw [vformatChars_no_pct color hc, vformatChars_no_pct lstr hl]
  rw [vformatChars_cons_ne ' ' _ _ (by decide), vformatChars_cons_ne '(' _ _ (by decide)]
  rw [vformatChars_pct_d]
  rw [vformatChars_cons_ne ')' _ _ (by decide), vformatChars_cons_ne ' ' _ _ (by decide)]
  rw [vformatChars_pct_s]
  rw [vformatChars_cons_ne ':' _ _ (by decide), vformatChars_cons_ne ' ' _ _ (by decide)]
  have ha := vformatChars_append_of_matches fmt args h post []
  rw [List.append_nil] at ha
  rw [ha, vformatChars_no_pct_nil post hp]

/-- C5: for a log call that passes both filters, the line handed to the
Sink — the rendering of the `LOG_FORMAT` format string with the timestamp,
the tag and the message arguments — is exactly
`<colorize-by-level>LEVEL_LETTER (<timestamp>) <tag>: <formatted message><reset-color>` followed by a newline,
with the ANSI color wrapping keyed by the level letter and controlled by
the boolean `CONFIG_LOG_COLORS` toggle. -/
theorem composed_line_format (colors : Bool) (l : Letter) (ts : Nat) (tag fmt : String)
    (args : List PArg) (h : fmtMatches fmt.data args = true) :
    vformat (LOG_FORMAT colors l fmt) (PArg.int ts :: PArg.str tag :: args) =
      logColorOf colors l ++ letterString l ++ " (" ++ Nat.repr ts ++ ") " ++ tag ++
        ": " ++ vformat fmt args ++ LOG_RESET_COLOR colors ++ "\n" := by
  have key := vformatChars_line (logColorOf colors l).data (letterString l).data
    (logColorOf_no_pct colors l) (letterString_no_pct l) ts tag fmt.data args h
    ((LOG_RESET_COLOR colors).data ++ ['\n']) (resetNl_no_pct colors)
  have hfmt : (LOG_FORMAT colors l fmt).data =
      (logColorOf colors l).data ++ ((letterString l).data ++
        (' ' :: '(' :: '%' :: 'd' :: ')' :: ' ' :: '%' :: 's' :: ':' :: ' ' ::
          (fmt.data ++ ((LOG_RESET_COLOR colors).data ++ ['\n'])))) := by
    simp only [LOG_FORMAT, String.data_append, List.append_assoc]
    rfl
  have hrhs : (logColorOf colors l ++ letterString l ++ " (" ++ Nat.repr ts ++ ") " ++
        tag ++ ": " ++ vformat fmt args ++ LOG_RESET_COLOR colors ++ "\n").data =
      (logColorOf colors l).data ++ ((letterString l).data ++ (' ' :: '(' ::
        ((Nat.repr ts).data ++ (')' :: ' ' :: (tag.data ++ (':' :: ' ' ::
          (vformatChars fmt.data args ++
            ((LOG_RESET_COLOR colors).data ++ ['\n'])))))))) := by
    simp only [String.data_append, List.append_assoc]
    rfl
  apply String.ext
  show vformatChars (LOG_FORMAT colors l fmt).data (PArg.int ts :: PArg.str tag :: args) =
    (logColorOf colors l ++ letterString l ++ " (" ++ Nat.repr ts ++ ") " ++ tag ++
      ": " ++ vformat fmt args ++ LOG_RESET_COLOR colors ++ "\n").data
  rw [hfmt, hrhs]
  exact key

/-- Witness for C5 at a concrete input: colors on, letter `E`, timestamp 3,
tag `"net"`, message format `"x%d"` with one integer argument. -/
theorem composed_line_format_witness :
    fmtMatches ("x%d" : String).data [PArg.int 7] = true ∧
    vformat (LOG_FORMAT true .E "x%d") (PArg.int 3 :: PArg.str "net" :: [PArg.int 7]) =
      logColorOf true .E ++ letterString .E ++ " (" ++ Nat.repr 3 ++ ") " ++ "net" ++
        ": " ++ vformat "x%d" [PArg.int 7] ++ LOG_RESET_COLOR true ++ "\n" :=
  ⟨by decide, composed_line_format true .E 3 "net" "x%d" [PArg.int 7] (by decide)⟩

/-! ### C1: run-time filtering in `esp_log_write` -/

theorem level_le_iff (a b : esp_log_level_t) : a ≤ b ↔ a.toNat ≤ b.toNat := Iff.rfl

theorem level_lt_iff (a b : esp_log_level_t) : a < b ↔ a.toNat < b.toNat := Iff.rfl

/-- Counterexample for C1 as stated: the claim quantifies over levels
`L1 ≤ L2`, and at `L1 = L2 = ERROR`, with the registry holding `ERROR` for
tag `"net"`, it asserts both that `esp_log_write` at `ERROR` produces no
output (as the more-verbose call `L2`) and that it produces output (as the
call at the registry level `L1`); the model refutes the conjunction at that
concrete input. -/
theorem write_runtime_filter_cex :
    ¬ (∀ (s : LogState) (tag : String) (L1 L2 : esp_log_level_t) (fmt : String)
        (args : List PArg), L1 ≤ L2 → registryLevel s tag = L1 →
        esp_log_write s L2 tag fmt args = none ∧
        esp_log_write s L1 tag fmt args ≠ none) := by
  intro h
  have hcase := h ⟨.ESP_LOG_INFO, [("net", .ESP_LOG_ERROR)], 0⟩ "net" .ESP_LOG_ERROR
    .ESP_LOG_ERROR "x" [] (by decide) (by decide)
  exact hcase.2 hcase.1

/-- C1 (amended): for all tags and levels `L1 < L2` (`L2` strictly more
verbose), if the Level Registry level for the tag is `L1` then
`esp_log_write` at `L2` is a no-op producing no output, while at `L1` it
passes the composed line to the current Sink. -/
theorem write_runtime_filter (s : LogState) (tag : String) (L1 L2 : esp_log_level_t)
    (fmt : String) (args : List PArg) (h12 : L1 < L2)
    (hreg : registryLevel s tag = L1) :
    esp_log_write s L2 tag fmt args = none ∧
    esp_log_write s L1 tag fmt args = some ⟨s.sink, fmt, args⟩ := by
  constructor
  · have hnle : ¬ (L2 ≤ registryLevel s tag) := by
      rw [hreg]
      intro hle
      exact Nat.not_le.mpr ((level_lt_iff L1 L2).mp h12) ((level_le_iff L2 L1).mp hle)
    simp [esp_log_write, hnle]
  · have hle : L1 ≤ registryLevel s tag := by
      rw [hreg]
      exact (level_le_iff L1 L1).mpr (Nat.le_refl _)
    simp [esp_log_write, hle]

/-- Witness for C1 (amended) at a concrete input: registry level `WARN` for
tag `"net"`, write at `INFO` filtered out, write at `WARN` delivered to the
sink. -/
theorem write_runtime_filter_witness :
    esp_log_write ⟨.ESP_LOG_INFO, [("net", .ESP_LOG_WARN)], 5⟩ .ESP_LOG_INFO
      "net" "x" [] = none ∧
    esp_log_write ⟨.ESP_LOG_INFO, [("net", .ESP_LOG_WARN)], 5⟩ .ESP_LOG_WARN
      "net" "x" [] = some ⟨5, "x", []⟩ :=
  write_runtime_filter ⟨.ESP_LOG_INFO, [("net", .ESP_LOG_WARN)], 5⟩ "net"
    .ESP_LOG_WARN .ESP_LOG_INFO "x" [] (by decide) (by decide)

/-! ### C4: `esp_log_level_set` -/

theorem find_map_const (l : List (String × esp_log_level_t)) (t : String)
    (level : esp_log_level_t) (h : ∃ e ∈ l, e.1 = t) :
    (l.map (fun e => (e.1, level))).find? (fun e => e.1 == t) = some (t, level) := by
  induction l with
  | nil => simp at h
  | cons a l ih =>
      by_cases hat : a.1 = t
      · rw [List.map_cons, List.find?_cons_of_pos]
        · rw [hat]
        · simp [hat]
      · rcases h with ⟨e, he, het⟩
        rcases List.mem_cons.mp he with rfl | hmem
        · exact absurd het hat
        · rw [List.map_cons, List.find?_cons_of_neg]
          · exact ih ⟨e, hmem, het⟩
          · simp [hat]

theorem find_upsert_self (l : List (String × esp_log_level_t)) (tag : String)
    (level : esp_log_level_t) :
    (upsertEntry l tag level).find? (fun e => e.1 == tag) = some (tag, level) := by
  induction l with
  | nil => simp [upsertEntry, List.find?]
  | cons a l ih =>
      by_cases hat : a.1 = tag
      · rw [upsertEntry, if_pos hat, List.find?_cons_of_pos]
        · rw [hat]
        · simp [hat]
      · rw [upsertEntry, if_neg hat, List.find?_cons_of_neg]
        · exact ih
        · simp [hat]

theorem find_upsert_other (l : List (String × esp_log_level_t)) (tag t : String)
    (level : esp_log_level_t) (h : t ≠ tag) :
    (upsertEntry l tag level).find? (fun e => e.1 == t) =
      l.find? (fun e => e.1 == t) := by
  induction l with
  | nil =>
      have hb : (tag == t) = false := beq_eq_false_iff_ne.mpr (fun hh => h hh.symm)
      simp [upsertEntry, List.find?, hb]
  | cons a l ih =>
      by_cases hat : a.1 = tag
      · rw [upsertEntry, if_pos hat]
        have hant : ¬ (a.1 = t) := fun hc => h (hc ▸ hat.symm ▸ rfl)
        rw [List.find?_cons_of_neg, List.find?_cons_of_neg]
        · simp [hant]
        · simp [hant]
      · rw [upsertEntry, if_neg hat]
        by_cases hant : a.1 = t
        · rw [List.find?_cons_of_pos, List.find?_cons_of_pos] <;> simp [hant]
        · rw [List.find?_cons_of_neg, List.find?_cons_of_neg]
          · exact ih
          · simp [hant]
          · simp [hant]

/-- C4: `esp_log_level_set` with the wildcard tag `"*"` resets every
previously set per-tag level in the Level Registry to the given value; with
any other tag it upserts only that tag's entry, leaving every other tag's
effective level unchanged.  The operation is a total function on the state
(no error path). -/
theorem level_set_wildcard_and_upsert (s : LogState) (tag : String)
    (level : esp_log_level_t) :
    (tag = "*" → ∀ t, (∃ e ∈ s.entries, e.1 = t) →
      registryLevel (esp_log_level_set s tag level) t = level) ∧
    (tag ≠ "*" → registryLevel (esp_log_level_set s tag level) tag = level ∧
      ∀ t, t ≠ tag → registryLevel (esp_log_level_set s tag level) t =
        registryLevel s t) := by
  constructor
  · intro hwild t ht
    rw [esp_log_level_set, if_pos hwild]
    unfold registryLevel
    rw [find_map_const s.entries t level ht]
  · intro hother
    constructor
    · rw [esp_log_level_set, if_neg hother]
      unfold registryLevel
      rw [find_upsert_self s.entries tag level]
    · intro t htt
      rw [esp_log_level_set, if_neg hother]
      unfold registryLevel
      rw [find_upsert_other s.entries tag t level htt]

/-- Witness for C4 at concrete inputs: a wildcard set at `ERROR` resets the
previously set entry for `"wifi"`, and an upsert for `"dhcp"` leaves the
effective level of `"net"` unchanged. -/
theorem level_set_wildcard_and_upsert_witness :
    registryLevel (esp_log_level_set
      ⟨.ESP_LOG_INFO, [("wifi", .ESP_LOG_DEBUG), ("net", .ESP_LOG_VERBOSE)], 0⟩
      "*" .ESP_LOG_ERROR) "wifi" = .ESP_LOG_ERROR ∧
    registryLevel (esp_log_level_set
      ⟨.ESP_LOG_INFO, [("wifi", .ESP_LOG_DEBUG), ("net", .ESP_LOG_VERBOSE)], 0⟩
      "dhcp" .ESP_LOG_WARN) "net" =
      registryLevel
        ⟨.ESP_LOG_INFO, [("wifi", .ESP_LOG_DEBUG), ("net", .ESP_LOG_VERBOSE)], 0⟩
        "net" :=
  ⟨(level_set_wildcard_and_upsert
      ⟨.ESP_LOG_INFO, [("wifi", .ESP_LOG_DEBUG), ("net", .ESP_LOG_VERBOSE)], 0⟩
      "*" .ESP_LOG_ERROR).1 rfl "wifi"
      ⟨("wifi", .ESP_LOG_DEBUG), by decide, rfl⟩,
    ((level_set_wildcard_and_upsert
      ⟨.ESP_LOG_INFO, [("wifi", .ESP_LOG_DEBUG), ("net", .ESP_LOG_VERBOSE)], 0⟩
      "dhcp" .ESP_LOG_WARN).2 (by decide)).2 "net" (by decide)⟩

/-! ### C2: the compile-time ceiling -/

theorem espLogMacro_elided (cfg : LogConfig) (level : esp_log_level_t) (letter : Letter)
    (tag fmt : String) (ts : Nat) (args : List PArg) (h : cfg.localLevel < level) :
    espLogMacro cfg level letter tag fmt ts args = none ∧
    espEarlyLogMacro cfg level letter tag fmt ts args = none := by
  have hnle : ¬ (level ≤ cfg.localLevel) := fun hle =>
    absurd ((level_le_iff _ _).mp hle) (Nat.not_le.mpr ((level_lt_iff _ _).mp h))
  constructor <;> simp [espLogMacro, espEarlyLogMacro, hnle]

/-- C2: a log macro invocation whose static level is above the configured
`LOG_LOCAL_LEVEL` ceiling expands to a statically false guard and is
removable by the build: the expansion makes no call at all, so it produces
no output and invokes neither `esp_log_write` nor `ets_printf`.  This holds
for all ten macros `ESP_LOGE/W/I/D/V` and `ESP_EARLY_LOGE/W/I/D/V`. -/
theorem compile_time_ceiling (cfg : LogConfig) (tag fmt : String) (ts : Nat)
    (args : List PArg) :
    (cfg.localLevel < .ESP_LOG_ERROR → ESP_LOGE cfg tag fmt ts args = none ∧
      ESP_EARLY_LOGE cfg tag fmt ts args = none) ∧
    (cfg.localLevel < .ESP_LOG_WARN → ESP_LOGW cfg tag fmt ts args = none ∧
      ESP_EARLY_LOGW cfg tag fmt ts args = none) ∧
    (cfg.localLevel < .ESP_LOG_INFO → ESP_LOGI cfg tag fmt ts args = none ∧
      ESP_EARLY_LOGI cfg tag fmt ts args = none) ∧
    (cfg.localLevel < .ESP_LOG_DEBUG → ESP_LOGD cfg tag fmt ts args = none ∧
      ESP_EARLY_LOGD cfg tag fmt ts args = none) ∧
    (cfg.localLevel < .ESP_LOG_VERBOSE → ESP_LOGV cfg tag fmt ts args = none ∧
      ESP_EARLY_LOGV cfg tag fmt ts args = none) := by
  refine ⟨?_, ?_, ?_, ?_, ?_⟩ <;> intro h
  · exact espLogMacro_elided cfg .ESP_LOG_ERROR .E tag fmt ts args h
  · exact espLogMacro_elided cfg .ESP_LOG_WARN .W tag fmt ts args h
  · exact espLogMacro_elided cfg .ESP_LOG_INFO .I tag fmt ts args h
  · exact espLogMacro_elided cfg .ESP_LOG_DEBUG .D tag fmt ts args h
  · exact espLogMacro_elided cfg .ESP_LOG_VERBOSE .V tag fmt ts args h

/-- Witness for C2 at a concrete input: with the ceiling `ESP_LOG_NONE`
every macro at every level is elided. -/
theorem compile_time_ceiling_witness :
    (ESP_LOGE ⟨.ESP_LOG_NONE, false⟩ "t" "f" 0 [] = none ∧
      ESP_EARLY_LOGE ⟨.ESP_LOG_NONE, false⟩ "t" "f" 0 [] = none) ∧
    (ESP_LOGW ⟨.ESP_LOG_NONE, false⟩ "t" "f" 0 [] = none ∧
      ESP_EARLY_LOGW ⟨.ESP_LOG_NONE, false⟩ "t" "f" 0 [] = none) ∧
    (ESP_LOGI ⟨.ESP_LOG_NONE, false⟩ "t" "f" 0 [] = none ∧
      ESP_EARLY_LOGI ⟨.ESP_LOG_NONE, false⟩ "t" "f" 0 [] = none) ∧
    (ESP_LOGD ⟨.ESP_LOG_NONE, false⟩ "t" "f" 0 [] = none ∧
      ESP_EARLY_LOGD ⟨.ESP_LOG_NONE, false⟩ "t" "f" 0 [] = none) ∧
    (ESP_LOGV ⟨.ESP_LOG_NONE, false⟩ "t" "f" 0 [] = none ∧
      ESP_EARLY_LOGV ⟨.ESP_LOG_NONE, false⟩ "t" "f" 0 [] = none) :=
  ⟨(compile_time_ceiling ⟨.ESP_LOG_NONE, false⟩ "t" "f" 0 []).1 (by decide),
    (compile_time_ceiling ⟨.ESP_LOG_NONE, false⟩ "t" "f" 0 []).2.1 (by decide),
    (compile_time_ceiling ⟨.ESP_LOG_NONE, false⟩ "t" "f" 0 []).2.2.1 (by decide),
    (compile_time_ceiling ⟨.ESP_LOG_NONE, false⟩ "t" "f" 0 []).2.2.2.1 (by decide),
    (compile_time_ceiling ⟨.ESP_LOG_NONE, false⟩ "t" "f" 0 []).2.2.2.2 (by decide)⟩

/-! ### C9: the early variants bypass the Sink -/

theorem espEarlyLogMacro_ets (cfg : LogConfig) (level : esp_log_level_t) (letter : Letter)
    (tag fmt : String) (ts : Nat) (args : List PArg) :
    (∀ c ∈ espEarlyLogMacro cfg level letter tag fmt ts args, c.isEtsPrintf = true) ∧
    (level ≤ cfg.localLevel → ∃ f a,
      espEarlyLogMacro cfg level letter tag fmt ts args = some (.etsPrintf f a)) := by
  constructor
  · intro c hc
    unfold espEarlyLogMacro at hc
    by_cases hle : level ≤ cfg.localLevel
    · rw [if_pos hle] at hc
      simp only [Option.mem_def, Option.some_inj] at hc
      rw [← hc]
      rfl
    · rw [if_neg hle] at hc
      simp at hc
  · intro h
    exact ⟨LOG_FORMAT cfg.colors letter fmt, .int ts :: .str tag :: args,
      by simp [espEarlyLogMacro, h]⟩

/-- C9: the early variants of the write path bypass the Sink mechanism.
Every call an `ESP_EARLY_LOGx` expansion makes is a direct `ets_printf`
call — never `esp_log_write`, hence never the installed `vprintf`-like
sink — and whenever the static level passes the compile-time ceiling, the
expansion does make that direct `ets_printf` call. -/
theorem early_macros_bypass_sink (cfg : LogConfig) (tag fmt : String) (ts : Nat)
    (args : List PArg) :
    ((∀ c ∈ ESP_EARLY_LOGE cfg tag fmt ts args, c.isEtsPrintf = true) ∧
      (.ESP_LOG_ERROR ≤ cfg.localLevel → ∃ f a,
        ESP_EARLY_LOGE cfg tag fmt ts args = some (.etsPrintf f a))) ∧
    ((∀ c ∈ ESP_EARLY_LOGW cfg tag fmt ts args, c.isEtsPrintf = true) ∧
      (.ESP_LOG_WARN ≤ cfg.localLevel → ∃ f a,
        ESP_EARLY_LOGW cfg tag fmt ts args = some (.etsPrintf f a))) ∧
    ((∀ c ∈ ESP_EARLY_LOGI cfg tag fmt ts args, c.isEtsPrintf = true) ∧
      (.ESP_LOG_INFO ≤ cfg.localLevel → ∃ f a,
        ESP_EARLY_LOGI cfg tag fmt ts args = some (.etsPrintf f a))) ∧
    ((∀ c ∈ ESP_EARLY_LOGD cfg tag fmt ts args, c.isEtsPrintf = true) ∧
      (.ESP_LOG_DEBUG ≤ cfg.localLevel → ∃ f a,
        ESP_EARLY_LOGD cfg tag fmt ts args = some (.etsPrintf f a))) ∧
    ((∀ c ∈ ESP_EARLY_LOGV cfg tag fmt ts args, c.isEtsPrintf = true) ∧
      (.ESP_LOG_VERBOSE ≤ cfg.localLevel → ∃ f a,
        ESP_EARLY_LOGV cfg tag fmt ts args = some (.etsPrintf f a))) :=
  ⟨espEarlyLogMacro_ets cfg .ESP_LOG_ERROR .E tag fmt ts args,
    espEarlyLogMacro_ets cfg .ESP_LOG_WARN .W tag fmt ts args,
    espEarlyLogMacro_ets cfg .ESP_LOG_INFO .I tag fmt ts args,
    espEarlyLogMacro_ets cfg .ESP_LOG_DEBUG .D tag fmt ts args,
    espEarlyLogMacro_ets cfg .ESP_LOG_VERBOSE .V tag fmt ts args⟩

/-- Witness for C9 at a concrete input: with ceiling `VERBOSE`, the `E`
early macro produces exactly an `ets_printf` call. -/
theorem early_macros_bypass_sink_witness :
    (LogCall.etsPrintf (LOG_FORMAT false .E "f")
      [PArg.int 0, PArg.str "t"]).isEtsPrintf = true ∧
    (∃ f a, ESP_EARLY_LOGE ⟨.ESP_LOG_VERBOSE, false⟩ "t" "f" 0 [] =
      some (.etsPrintf f a)) :=
  ⟨(early_macros_bypass_sink ⟨.ESP_LOG_VERBOSE, false⟩ "t" "f" 0 []).1.1
      (LogCall.etsPrintf (LOG_FORMAT false .E "f") [PArg.int 0, PArg.str "t"])
      (by decide),
    (early_macros_bypass_sink ⟨.ESP_LOG_VERBOSE, false⟩ "t" "f" 0 []).1.2 (by decide)⟩

/-! ### C10: early and bootloader macros ignore the Level Registry -/

theorem espEarlyLogMacro_run_indep (cfg : LogConfig) (level : esp_log_level_t)
    (letter : Letter) (tag fmt : String) (ts : Nat) (args : List PArg)
    (s1 s2 : LogState) :
    (espEarlyLogMacro cfg level letter tag fmt ts args).bind (runCall s1) =
      (espEarlyLogMacro cfg level letter tag fmt ts args).bind (runCall s2) ∧
    (level ≤ cfg.localLevel →
      ((espEarlyLogMacro cfg level letter tag fmt ts args).bind
        (runCall s1)).isSome = true) := by
  constructor
  · unfold espEarlyLogMacro
    by_cases hle : level ≤ cfg.localLevel <;> simp [hle, runCall]
  · intro h
    simp [espEarlyLogMacro, h, runCall]

/-- C10 (implicit): the early log macros — and the bootloader-build
`ESP_LOGx` macros, which fall back to them — are filtered only by the
compile-time ceiling `LOG_LOCAL_LEVEL` and never consult the run-time
Level Registry: their output is identical in any two façade states (hence
unaffected by any prior `esp_log_level_set` call), and for every tag and
level at or below the ceiling an output is emitted. -/
theorem early_macros_ignore_registry (cfg : LogConfig) (s1 s2 : LogState)
    (tag fmt : String) (ts : Nat) (args : List PArg) :
    ((ESP_EARLY_LOGE cfg tag fmt ts args).bind (runCall s1) =
        (ESP_EARLY_LOGE cfg tag fmt ts args).bind (runCall s2) ∧
      (.ESP_LOG_ERROR ≤ cfg.localLevel →
        ((ESP_EARLY_LOGE cfg tag fmt ts args).bind (runCall s1)).isSome = true) ∧
      ESP_LOGE_BOOTLOADER cfg tag fmt ts args = ESP_EARLY_LOGE cfg tag fmt ts args) ∧
    ((ESP_EARLY_LOGW cfg tag fmt ts args).bind (runCall s1) =
        (ESP_EARLY_LOGW cfg tag fmt ts args).bind (runCall s2) ∧
      (.ESP_LOG_WARN ≤ cfg.localLevel →
        ((ESP_EARLY_LOGW cfg tag fmt ts args).bind (runCall s1)).isSome = true) ∧
      ESP_LOGW_BOOTLOADER cfg tag fmt ts args = ESP_EARLY_LOGW cfg tag fmt ts args) ∧
    ((ESP_EARLY_LOGI cfg tag fmt ts args).bind (runCall s1) =
        (ESP_EARLY_LOGI cfg tag fmt ts args).bind (runCall s2) ∧
      (.ESP_LOG_INFO ≤ cfg.localLevel →
        ((ESP_EARLY_LOGI cfg tag fmt ts args).bind (runCall s1)).isSome = true) ∧
      ESP_LOGI_BOOTLOADER cfg tag fmt ts args = ESP_EARLY_LOGI cfg tag fmt ts args) ∧
    ((ESP_EARLY_LOGD cfg tag fmt ts args).bind (runCall s1) =
        (ESP_EARLY_LOGD cfg tag fmt ts args).bind (runCall s2) ∧
      (.ESP_LOG_DEBUG ≤ cfg.localLevel →
        ((ESP_EARLY_LOGD cfg tag fmt ts args).bind (runCall s1)).isSome = true) ∧
      ESP_LOGD_BOOTLOADER cfg tag fmt ts args = ESP_EARLY_LOGD cfg tag fmt ts args) ∧
    ((ESP_EARLY_LOGV cfg tag fmt ts args).bind (runCall s1) =
        (ESP_EARLY_LOGV cfg tag fmt ts args).bind (runCall s2) ∧
      (.ESP_LOG_VERBOSE ≤ cfg.localLevel →
        ((ESP_EARLY_LOGV cfg tag fmt ts args).bind (runCall s1)).isSome = true) ∧
      ESP_LOGV_BOOTLOADER cfg tag fmt ts args = ESP_EARLY_LOGV cfg tag fmt ts args) :=
  ⟨⟨(espEarlyLogMacro_run_indep cfg .ESP_LOG_ERROR .E tag fmt ts args s1 s2).1,
      (espEarlyLogMacro_run_indep cfg .ESP_LOG_ERROR .E tag fmt ts args s1 s2).2, rfl⟩,
    ⟨(espEarlyLogMacro_run_indep cfg .ESP_LOG_WARN .W tag fmt ts args s1 s2).1,
      (espEarlyLogMacro_run_indep cfg .ESP_LOG_WARN .W tag fmt ts args s1 s2).2, rfl⟩,
    ⟨(espEarlyLogMacro_run_indep cfg .ESP_LOG_INFO .I tag fmt ts args s1 s2).1,
      (espEarlyLogMacro_run_indep cfg .ESP_LOG_INFO .I tag fmt ts args s1 s2).2, rfl⟩,
    ⟨(espEarlyLogMacro_run_indep cfg .ESP_LOG_DEBUG .D tag fmt ts args s1 s2).1,
      (espEarlyLogMacro_run_indep cfg .ESP_LOG_DEBUG .D tag fmt ts args s1 s2).2, rfl⟩,
    ⟨(espEarlyLogMacro_run_indep cfg .ESP_LOG_VERBOSE .V tag fmt ts args s1 s2).1,
      (espEarlyLogMacro_run_indep cfg .ESP_LOG_VERBOSE .V tag fmt ts args s1 s2).2, rfl⟩⟩

/-- Witness for C10 at a concrete input: even in a state whose registry
sets tag `"t"` (and the default) to `NONE`, the early `E` macro with
ceiling `VERBOSE` still emits output. -/
theorem early_macros_ignore_registry_witness :
    ((ESP_EARLY_LOGE ⟨.ESP_LOG_VERBOSE, false⟩ "t" "f" 0 []).bind
      (runCall ⟨.ESP_LOG_NONE, [("t", .ESP_LOG_NONE)], 0⟩)).isSome = true :=
  ((early_macros_ignore_registry ⟨.ESP_LOG_VERBOSE, false⟩
      ⟨.ESP_LOG_NONE, [("t", .ESP_LOG_NONE)], 0⟩ ⟨.ESP_LOG_NONE, [], 0⟩
      "t" "f" 0 []).1).2.1 (by decide)

/-! ### C6: sink uniqueness and swap -/

theorem logRun_append (s : LogState) (a b : List LogOp) :
    logRun s (a ++ b) = ((logRun (logRun s a).1 b).1,
      (logRun s a).2 ++ (logRun (logRun s a).1 b).2) := by
  induction a generalizing s with
  | nil => simp [logRun]
  | cons op ops ih =>
      simp [logRun, ih, List.append_assoc]

theorem logStep_sink_preserved (s : LogState) (op : LogOp)
    (h : op.isSetVprintf = false) : (logStep s op).1.sink = s.sink := by
  cases op with
  | setLevel tag level =>
      show (esp_log_level_set s tag level).sink = s.sink
      unfold esp_log_level_set
      split <;> rfl
  | setVprintf func => simp [LogOp.isSetVprintf] at h
  | writeOp level tag fmt args => rfl

theorem logStep_emits_current_sink (s : LogState) (op : LogOp) (e : SinkEvent)
    (h : e ∈ (logStep s op).2.toList) : e.sink = s.sink := by
  cases op with
  | setLevel tag level => simp [logStep] at h
  | setVprintf func => simp [logStep] at h
  | writeOp level tag fmt args =>
      simp only [logStep] at h
      unfold esp_log_write at h
      by_cases hle : level ≤ registryLevel s tag
      · rw [if_pos hle] at h
        simp at h
        rw [h]
      · rw [if_neg hle] at h
        simp at h

theorem logRun_events_sink (s : LogState) (ops : List LogOp)
    (h : ∀ op ∈ ops, op.isSetVprintf = false) :
    ∀ e ∈ (logRun s ops).2, e.sink = s.sink := by
  induction ops generalizing s with
  | nil =>
      intro e he
      simp [logRun] at he
  | cons op ops ih =>
      intro e he
      simp only [logRun] at he
      rw [List.mem_append] at he
      rcases he with he | he
      · exact logStep_emits_current_sink s op e he
      · have hop : op.isSetVprintf = false := h op (List.mem_cons_self op ops)
        have hrest := ih (logStep s op).1
          (fun o ho => h o (List.mem_cons_of_mem op ho)) e he
        rw [hrest, logStep_sink_preserved s op hop]

/-- C6: the façade state holds a single Sink at any time, and
`esp_log_set_vprintf` atomically replaces it.  In a run
`ops1 ++ [setVprintf g] ++ ops2`, the events emitted before the swap are
exactly those of running `ops1` alone (none of the prior writes is routed
to the new sink retroactively), and — provided `ops2` performs no further
swap — every event emitted after the swap is routed to `g`. -/
theorem sink_swap_routes (s : LogState) (ops1 : List LogOp) (g : Nat)
    (ops2 : List LogOp) (h2 : ∀ op ∈ ops2, op.isSetVprintf = false) :
    (logRun s (ops1 ++ .setVprintf g :: ops2)).2 =
      (logRun s ops1).2 ++
        (logRun (esp_log_set_vprintf (logRun s ops1).1 g) ops2).2 ∧
    ∀ e ∈ (logRun (esp_log_set_vprintf (logRun s ops1).1 g) ops2).2,
      e.sink = g := by
  constructor
  · rw [logRun_append]
    simp [logRun, logStep]
  · intro e he
    have hs := logRun_events_sink (esp_log_set_vprintf (logRun s ops1).1 g) ops2 h2 e he
    rw [hs]
    rfl

/-- Witness for C6 at a concrete input: a write before the swap goes to
sink 1, the swap installs sink 2, and the write after the swap is routed to
sink 2. -/
theorem sink_swap_routes_witness :
    ((logRun ⟨.ESP_LOG_INFO, [], 1⟩
        ([LogOp.writeOp .ESP_LOG_ERROR "t" "f" []] ++
          LogOp.setVprintf 2 :: [LogOp.writeOp .ESP_LOG_ERROR "t" "g" []])).2 =
      (logRun ⟨.ESP_LOG_INFO, [], 1⟩ [LogOp.writeOp .ESP_LOG_ERROR "t" "f" []]).2 ++
        (logRun (esp_log_set_vprintf
          (logRun ⟨.ESP_LOG_INFO, [], 1⟩
            [LogOp.writeOp .ESP_LOG_ERROR "t" "f" []]).1 2)
          [LogOp.writeOp .ESP_LOG_ERROR "t" "g" []]).2) ∧
    (SinkEvent.mk 2 "g" []).sink = 2 :=
  ⟨(sink_swap_routes ⟨.ESP_LOG_INFO, [], 1⟩ [.writeOp .ESP_LOG_ERROR "t" "f" []] 2
      [.writeOp .ESP_LOG_ERROR "t" "g" []] (by decide)).1,
    (sink_swap_routes ⟨.ESP_LOG_INFO, [], 1⟩ [.writeOp .ESP_LOG_ERROR "t" "f" []] 2
      [.writeOp .ESP_LOG_ERROR "t" "g" []] (by decide)).2 ⟨2, "g", []⟩ (by decide)⟩

/-! ### C7: timestamp monotonicity and wrap-around -/

theorem clockStep_raw_mono (a b : ClockState) (h : ClockStep a b) :
    rawTimestampMs a ≤ rawTimestampMs b := by
  cases h with
  | advanceCycle d hrun => simp [rawTimestampMs, hrun]
  | advanceTick d hrun => simp [rawTimestampMs, hrun]
  | startScheduler t hrun hge =>
      simp [rawTimestampMs, hrun]
      exact hge

/-- C7: along any sequence of clock evolutions within one execution
context, the millisecond count read by `esp_log_timestamp` is monotonically
non-decreasing — including across the switch from the CPU-cycle-derived
source to the scheduler-tick-derived source — while the returned 32-bit
value is that count reduced modulo `2 ^ 32` (overflow is unhandled, the
value wraps around). -/
theorem timestamp_monotone_and_wraps (a b : ClockState) (h : ClockReach a b) :
    rawTimestampMs a ≤ rawTimestampMs b ∧
    esp_log_timestamp a = rawTimestampMs a % 2 ^ 32 ∧
    esp_log_timestamp b = rawTimestampMs b % 2 ^ 32 := by
  refine ⟨?_, rfl, rfl⟩
  induction h with
  | refl c => exact Nat.le_refl _
  | step a b c hab hbc ih => exact Nat.le_trans (clockStep_raw_mono a b hab) ih

/-- Witness for C7 at a concrete input: the cycle counter advances from 5
to 10 ms, then the scheduler starts with a tick count worth 12 ms. -/
theorem timestamp_monotone_and_wraps_witness :
    rawTimestampMs ⟨false, 5, 0⟩ ≤ rawTimestampMs ⟨true, 10, 12⟩ ∧
    esp_log_timestamp ⟨false, 5, 0⟩ = rawTimestampMs ⟨false, 5, 0⟩ % 2 ^ 32 ∧
    esp_log_timestamp ⟨true, 10, 12⟩ = rawTimestampMs ⟨true, 10, 12⟩ % 2 ^ 32 :=
  timestamp_monotone_and_wraps ⟨false, 5, 0⟩ ⟨true, 10, 12⟩
    (.step ⟨false, 5, 0⟩ ⟨false, 10, 0⟩ ⟨true, 10, 12⟩
      (.advanceCycle ⟨false, 5, 0⟩ 5 rfl)
      (.step ⟨false, 10, 0⟩ ⟨true, 10, 12⟩ ⟨true, 10, 12⟩
        (.startScheduler ⟨false, 10, 0⟩ 12 rfl (by decide))
        (.refl ⟨true, 10, 12⟩)))

/-! ### C8: return-value contract -/

/-- Counterexample for C8 as stated: the header declares
`void esp_log_write(...)`, so the write primitive is void-returning rather
than returning the advisory signed count the claim asserts; the claim's
return-type assignment is refuted on the declared signatures. -/
theorem facade_return_types_cex :
    ¬ (esp_log_level_set_ret = CRet.void ∧ esp_log_set_vprintf_ret = CRet.void ∧
       esp_log_write_ret = CRet.int) := by decide

/-- C8 (amended): every operation of the façade — `esp_log_level_set`,
`esp_log_set_vprintf` and also the write primitive `esp_log_write` — is
best-effort and void-returning; the advisory signed count of characters
written appears only in the Sink signature `vprintf_like_t`, which returns
`int` (the vprintf convention). -/
theorem facade_return_types :
    esp_log_level_set_ret = CRet.void ∧ esp_log_set_vprintf_ret = CRet.void ∧
    esp_log_write_ret = CRet.void ∧ vprintf_like_t_ret = CRet.int := by decide
